import Mathlib

/-!
Shallow embedding of the Discord-Feed notification pipeline
(`src/main/discordRpcService.js` and `src/main/openAiService.js`).

Conventions used throughout:
* JavaScript strings are Lean `String`s; a field that may be `undefined`
  is an `Option String` (with `none` for `undefined`); where the source
  only distinguishes truthy/falsy, both `none` and `some ""` are falsy.
* The remote LLM is an oracle: each network call is replaced by a value
  describing its observable outcome (success payload, failure, ...),
  passed in as an argument.
* Clock readings (`new Date()`) are passed explicitly as minutes since
  the civil epoch 1970-01-01, in the local timezone used by the program.
* Record identifiers (Discord snowflakes) are opaque strings.
-/

namespace DiscordFeed

/-- `MAX_NOTIFICATIONS` in discordRpcService.js: maximum number of
notifications kept in memory. -/
def MAX_NOTIFICATIONS : Nat := 1000

/-- `eventDetails` payload produced by the LLM for `extractEventDetails`
(see the JSON schema in the extraction prompt).  All fields are strings;
`""` plays the role of an absent/empty (falsy) field. -/
structure EventDetails where
  hasEvent : Bool
  title : String
  date : String
  time : String
  endDate : String
  endTime : String
  location : String
  description : String
  deriving Repr, DecidableEq

/-- The enriched notification object built by `processNotification`.
`author` is flattened to `authorName` (its `avatar` duplicates `icon`). -/
structure Notification where
  id : Option String
  title : String
  body : Option String
  summary : Option String
  summaryPending : Bool
  category : Option String
  importance : Option String
  eventDetails : Option EventDetails
  icon : String
  timestamp : String
  serverName : String
  channelName : String
  serverId : String
  channelId : String
  messageLink : String
  authorName : String
  deriving Repr, DecidableEq

/-- The body of the `NOTIFICATION_CREATE` handler after `processNotification`:
`notifications.unshift(n)` followed by `slice(0, MAX_NOTIFICATIONS)` when the
length exceeds the bound.  Trimming unconditionally is equivalent because
`slice` is the identity on shorter lists. -/
def storePrepend (st : List α) (n : α) : List α :=
  (n :: st).take MAX_NOTIFICATIONS

/-- `notifications.findIndex(n => n.id === id)`-style lookup, returning the
record itself (`getById` of the spec). -/
def getById (st : List Notification) (id : Option String) : Option Notification :=
  st.find? (fun n => n.id == id)

/-- Taking the head bound commutes with `storePrepend`'s internal trim. -/
theorem take_cons_take (x : α) (s : List α) (n : Nat) :
    (x :: s.take n).take n = (x :: s).take n := by
  cases n with
  | zero => rfl
  | succ m => simp [List.take_take]

/-- Folding `storePrepend` over arrivals keeps the newest
`MAX_NOTIFICATIONS` arrivals, newest first. -/
theorem foldl_storePrepend (l s : List α) :
    List.foldl storePrepend (s.take MAX_NOTIFICATIONS) l =
      (l.reverse ++ s).take MAX_NOTIFICATIONS := by
  induction l generalizing s with
  | nil => simp
  | cons x xs ih =>
      have h1 : storePrepend (s.take MAX_NOTIFICATIONS) x =
          (x :: s).take MAX_NOTIFICATIONS := by
        unfold storePrepend
        exact take_cons_take x s MAX_NOTIFICATIONS
      calc List.foldl storePrepend (s.take MAX_NOTIFICATIONS) (x :: xs)
          = List.foldl storePrepend ((x :: s).take MAX_NOTIFICATIONS) xs := by
            simp [List.foldl, h1]
        _ = (xs.reverse ++ (x :: s)).take MAX_NOTIFICATIONS := ih (x :: s)
        _ = ((x :: xs).reverse ++ s).take MAX_NOTIFICATIONS := by
            simp

/-- Starting from the empty store. -/
theorem foldl_storePrepend_nil (l : List α) :
    List.foldl storePrepend [] l = l.reverse.take MAX_NOTIFICATIONS := by
  have := foldl_storePrepend l ([] : List α)
  simpa using this

/-- A plain record with only the identifier varying: id of record `i` is the
string of `i` letters `a` (distinct ids for distinct `i`). -/
def mkRec (i : Nat) : Notification :=
  { id := some (String.mk (List.replicate i 'a'))
    title := "t", body := some "b", summary := none, summaryPending := false
    category := none, importance := none, eventDetails := none
    icon := "", timestamp := "", serverName := "", channelName := ""
    serverId := "", channelId := "", messageLink := "", authorName := "" }

/-- The store after 1001 sequential arrivals of `mkRec 0, ..., mkRec 1000`. -/
def store1001 : List Notification :=
  List.foldl storePrepend [] ((List.range 1001).map mkRec)

theorem mkRec_id_inj {i j : Nat} (h : (mkRec i).id = (mkRec j).id) : i = j := by
  simp only [mkRec, Option.some.injEq] at h
  have : (List.replicate i 'a').length = (List.replicate j 'a').length := by
    have hdata : (String.mk (List.replicate i 'a')).data =
        (String.mk (List.replicate j 'a')).data := by rw [h]
    simpa using congrArg List.length hdata
  simpa using this

/-- The oldest arrival's index is dropped once capacity is exceeded:
`0` is not among the first `k ≤ n` entries of `(range (n+1)).reverse`. -/
theorem zero_not_mem_take_reverse_range :
    ∀ n k : Nat, k ≤ n → 0 ∉ ((List.range (n + 1)).reverse.take k) := by
  intro n
  induction n with
  | zero =>
      intro k hk
      interval_cases k
      simp
  | succ m ih =>
      intro k hk
      have hrev : (List.range (m + 2)).reverse = (m + 1) :: (List.range (m + 1)).reverse := by
        rw [List.range_succ]
        simp
      cases k with
      | zero => simp
      | succ k' =>
          rw [hrev]
          simp only [List.take, List.mem_cons]
          rintro (h0 | hmem)
          · omega
          · exact ih k' (by omega) hmem

/-- C1: every sequence of prepend (notification-arrival) calls keeps the
store size at most `MAX_NOTIFICATIONS = 1000`, the size after each call is
`min 1000 totalInserted`, and after 1001 sequential insertions the store
holds 1000 records with the first-inserted record no longer found by id
lookup. -/
theorem claim_C1 :
    (∀ (l : List Notification) (k : Nat), k ≤ l.length →
        (List.foldl storePrepend [] (l.take k)).length = min MAX_NOTIFICATIONS k) ∧
    store1001.length = 1000 ∧
    getById store1001 (mkRec 0).id = none := by
  refine ⟨?_, ?_, ?_⟩
  · intro l k hk
    rw [foldl_storePrepend_nil, List.length_take, List.length_reverse, List.length_take]
    omega
  · rw [store1001, foldl_storePrepend_nil, List.length_take]
    simp [MAX_NOTIFICATIONS]
  · have hmap : ((List.range 1001).map mkRec).reverse.take MAX_NOTIFICATIONS =
        ((List.range 1001).reverse.take MAX_NOTIFICATIONS).map mkRec := by
      rw [← List.map_reverse, ← List.map_take]
    rw [getById, store1001, foldl_storePrepend_nil, hmap, List.find?_eq_none]
    intro x hx
    obtain ⟨j, hj, rfl⟩ := List.mem_map.mp hx
    have hj0 : j ≠ 0 := by
      intro h
      subst h
      exact zero_not_mem_take_reverse_range 1000 1000 le_rfl hj
    simp only [beq_iff_eq]
    intro heq
    exact hj0 (mkRec_id_inj heq)

/-- Witness for C1 at a concrete input: three queued arrivals, two taken. -/
theorem claim_C1_witness :
    (List.foldl storePrepend [] ((List.replicate 3 (mkRec 5)).take 2)).length =
      min MAX_NOTIFICATIONS 2 :=
  claim_C1.1 (List.replicate 3 (mkRec 5)) 2 (by simp)

/-- A character removed by JavaScript `String.prototype.trim`
(whitespace or line terminators; the common ASCII ones suffice here). -/
def isTrimmableChar (c : Char) : Bool :=
  c = ' ' ∨ c = '\t' ∨ c = '\n' ∨ c = '\r' ∨ c = '\x0b' ∨ c = '\x0c'

/-- JavaScript `s.trim()`. -/
def jsTrim (s : String) : String :=
  String.mk (((s.toList.dropWhile (isTrimmableChar · = true)).reverse.dropWhile
    (isTrimmableChar · = true)).reverse)

/-- Cached configuration of `OpenAIService` (fields of the class instance). -/
structure AIConfig where
  apiKey : String
  apiEndpoint : String
  enabled : Bool
  detectionMode : String
  minLength : Nat
  model : String
  deriving Repr, DecidableEq

/-- `OpenAIService.isEnabled()`: enabled and a non-blank endpoint. -/
def isEnabled (c : AIConfig) : Bool :=
  c.enabled && (c.apiEndpoint != "") && (jsTrim c.apiEndpoint != "")

/-- Observable outcome of the backend round trip inside
`checkSummarizationNeed`: the fetch may throw, return a non-OK status,
return a body without `choices[0].message`, or produce an answer string. -/
inductive NeedCheckResp where
  | throws
  | notOk
  | malformed
  | answer (s : String)
  deriving Repr, DecidableEq

/-- `OpenAIService.checkSummarizationNeed`: asks the backend a YES/NO
question; every failure path returns the length heuristic
`messageContent.length >= this.minLength`. -/
def checkSummarizationNeed (c : AIConfig) (messageContent : String)
    (resp : NeedCheckResp) : Bool :=
  match resp with
  | .answer s => (jsTrim s).toUpper == "YES"
  | .throws => decide (c.minLength ≤ messageContent.length)
  | .notOk => decide (c.minLength ≤ messageContent.length)
  | .malformed => decide (c.minLength ≤ messageContent.length)

/-- `OpenAIService.shouldSummarize`: length mode compares against
`minLength`; smart mode defers to the backend need-check; unknown modes
fall back to the length comparison. -/
def shouldSummarize (c : AIConfig) (messageContent : String)
    (resp : NeedCheckResp) : Bool :=
  if ¬(isEnabled c = true) ∨ messageContent = "" ∨ jsTrim messageContent = "" then false
  else if c.detectionMode = "length" then decide (c.minLength ≤ messageContent.length)
  else if c.detectionMode = "smart" then checkSummarizationNeed c messageContent resp
  else decide (c.minLength ≤ messageContent.length)

/-- C5: in smart detection mode, whenever the backend need-check fails
(throws, non-OK status, or malformed response body), `shouldSummarize`
returns exactly the length-mode result `len(body) >= minLength` for the
same input. -/
theorem claim_C5 (c : AIConfig) (body : String) (resp : NeedCheckResp)
    (hmode : c.detectionMode = "smart")
    (hfail : resp = NeedCheckResp.throws ∨ resp = NeedCheckResp.notOk ∨
      resp = NeedCheckResp.malformed) :
    shouldSummarize c body resp =
      shouldSummarize { c with detectionMode := "length" } body resp ∧
    (isEnabled c = true → body ≠ "" → jsTrim body ≠ "" →
      shouldSummarize c body resp = decide (c.minLength ≤ body.length)) := by
  have hmode' : ¬(c.detectionMode = "length") := by
    rw [hmode]
    decide
  rcases hfail with h | h | h <;> subst h <;>
    constructor <;>
    simp [shouldSummarize, checkSummarizationNeed, isEnabled, hmode, hmode'] <;>
    tauto

/-- Witness for C5: a concrete smart-mode configuration and a non-OK
backend response. -/
theorem claim_C5_witness :
    shouldSummarize
        { apiKey := "", apiEndpoint := "http://localhost:1234/v1", enabled := true,
          detectionMode := "smart", minLength := 4, model := "m" }
        "hello there" NeedCheckResp.notOk =
      shouldSummarize
        { apiKey := "", apiEndpoint := "http://localhost:1234/v1", enabled := true,
          detectionMode := "length", minLength := 4, model := "m" }
        "hello there" NeedCheckResp.notOk :=
  (claim_C5
    { apiKey := "", apiEndpoint := "http://localhost:1234/v1", enabled := true,
      detectionMode := "smart", minLength := 4, model := "m" }
    "hello there" NeedCheckResp.notOk rfl (Or.inr (Or.inl rfl))).1

/-- The flat settings object passed to `updateSettings` /
`discord:update-settings`.  `none` models an absent (`undefined`) field. -/
structure JsSettings where
  openaiApiKey : Option String
  openaiApiEndpoint : Option String
  enableSummarization : Option Bool
  summaryDetectionMode : Option String
  minLengthForSummary : Option Nat
  model : Option String
  deriving Repr, DecidableEq

/-- JavaScript `newValue || oldValue` on a possibly-absent string: the
empty string is the only falsy string. -/
def jsOrStringField : Option String → String → String
  | some s, old => if s = "" then old else s
  | none, old => old

/-- JavaScript `newValue || oldValue` on a possibly-absent number
(modelled on `Nat`): `0` is falsy. -/
def jsOrNatField : Option Nat → Nat → Nat
  | some n, old => if n = 0 then old else n
  | none, old => old

/-- `OpenAIService.updateSettings`: every field keeps its previous value
when the new one is falsy, except `enableSummarization`, which is applied
whenever it is defined. -/
def updateSettings (c : AIConfig) (s : JsSettings) : AIConfig :=
  { apiKey := jsOrStringField s.openaiApiKey c.apiKey
    apiEndpoint := jsOrStringField s.openaiApiEndpoint c.apiEndpoint
    enabled := match s.enableSummarization with
      | some b => b
      | none => c.enabled
    detectionMode := jsOrStringField s.summaryDetectionMode c.detectionMode
    minLength := jsOrNatField s.minLengthForSummary c.minLength
    model := jsOrStringField s.model c.model }

/-- C10: applying new settings with falsy values (empty-string key,
endpoint, model or detection mode; zero or missing minimum length) leaves
the previously configured values in place, while `enableSummarization =
false` is honored. -/
theorem claim_C10 (c : AIConfig) (s : JsSettings) :
    ((s.openaiApiKey = none ∨ s.openaiApiKey = some "") →
        (updateSettings c s).apiKey = c.apiKey) ∧
    ((s.openaiApiEndpoint = none ∨ s.openaiApiEndpoint = some "") →
        (updateSettings c s).apiEndpoint = c.apiEndpoint) ∧
    ((s.model = none ∨ s.model = some "") →
        (updateSettings c s).model = c.model) ∧
    ((s.summaryDetectionMode = none ∨ s.summaryDetectionMode = some "") →
        (updateSettings c s).detectionMode = c.detectionMode) ∧
    ((s.minLengthForSummary = none ∨ s.minLengthForSummary = some 0) →
        (updateSettings c s).minLength = c.minLength) ∧
    (s.enableSummarization = some false → (updateSettings c s).enabled = false) := by
  refine ⟨?_, ?_, ?_, ?_, ?_, ?_⟩ <;>
    first
      | (rintro (h | h) <;> simp [updateSettings, jsOrStringField, jsOrNatField, h])
      | (intro h; simp [updateSettings, h])

/-- Witness for C10: a settings object that supplies an empty key, empty
endpoint, empty model, empty mode, zero threshold and `false` for
summarization against a fully populated configuration. -/
theorem claim_C10_witness :
    (updateSettings
        { apiKey := "sk-old", apiEndpoint := "https://api.openai.com/v1",
          enabled := true, detectionMode := "smart", minLength := 100,
          model := "gpt-4o-mini" }
        { openaiApiKey := some "", openaiApiEndpoint := none,
          enableSummarization := some false, summaryDetectionMode := some "",
          minLengthForSummary := some 0, model := none }).apiKey = "sk-old" :=
  (claim_C10
    { apiKey := "sk-old", apiEndpoint := "https://api.openai.com/v1",
      enabled := true, detectionMode := "smart", minLength := 100,
      model := "gpt-4o-mini" }
    { openaiApiKey := some "", openaiApiEndpoint := none,
      enableSummarization := some false, summaryDetectionMode := some "",
      minLengthForSummary := some 0, model := none }).1 (Or.inr rfl)

/-- One character of `\d`. -/
def digitVal (c : Char) : Nat := c.toNat - 48

/-- The anchored regex `^\d{4}-\d{2}-\d{2}$` used for `date` / `endDate`. -/
def dateFormatOk (s : String) : Bool :=
  match s.toList with
  | [y1, y2, y3, y4, '-', mo1, mo2, '-', d1, d2] =>
      y1.isDigit && y2.isDigit && y3.isDigit && y4.isDigit &&
      mo1.isDigit && mo2.isDigit && d1.isDigit && d2.isDigit
  | _ => false

/-- Hour alternative `(1[0-2]|0?[1-9])` of the 12-hour regex, with the
regex's left-to-right alternative preference.  Returns the parsed hour
and the unconsumed characters. -/
def parseHour12 : List Char → Option (Nat × List Char)
  | '1' :: '0' :: rest => some (10, rest)
  | '1' :: '1' :: rest => some (11, rest)
  | '1' :: '2' :: rest => some (12, rest)
  | '0' :: c :: rest =>
      if '1' ≤ c ∧ c ≤ '9' then some (digitVal c, rest) else none
  | c :: rest =>
      if '1' ≤ c ∧ c ≤ '9' then some (digitVal c, rest) else none
  | [] => none

/-- `[0-5][0-9]` (minutes or seconds pair). -/
def parseMinutePair : List Char → Option (String × List Char)
  | c1 :: c2 :: rest =>
      if ('0' ≤ c1 ∧ c1 ≤ '5') ∧ c2.isDigit then
        some (String.mk [c1, c2], rest)
      else none
  | _ => none

/-- A character matched by the regex class `\s`. -/
def isSpaceChar (c : Char) : Bool :=
  c = ' ' ∨ c = '\t' ∨ c = '\n' ∨ c = '\r' ∨ c = '\x0b' ∨ c = '\x0c'

/-- `\s*`. -/
def dropSpaces : List Char → List Char
  | [] => []
  | c :: rest => if isSpaceChar c then dropSpaces rest else c :: rest

/-- `[AaPp][Mm]$`: the meridiem must end the string; `true` means PM. -/
def parseMeridiem : List Char → Option Bool
  | [a, m] =>
      if (a = 'A' ∨ a = 'a') ∧ (m = 'M' ∨ m = 'm') then some false
      else if (a = 'P' ∨ a = 'p') ∧ (m = 'M' ∨ m = 'm') then some true
      else none
  | _ => none

/-- The anchored 12-hour regex
`^(1[0-2]|0?[1-9]):[0-5][0-9](:[0-5][0-9])?\s*[AaPp][Mm]$` together with
the capture groups the source destructures: hour, minute pair, and
whether the meridiem is PM. -/
def parse12HourTime (s : String) : Option (Nat × String × Bool) :=
  match parseHour12 s.toList with
  | none => none
  | some (h, rest) =>
      match rest with
      | ':' :: rest2 =>
          match parseMinutePair rest2 with
          | none => none
          | some (mins, rest3) =>
              let afterSeconds : Option (List Char) :=
                match rest3 with
                | ':' :: r =>
                    match parseMinutePair r with
                    | some (_, r2) => some r2
                    | none => none
                | l => some l
              match afterSeconds with
              | none => none
              | some rest4 =>
                  match parseMeridiem (dropSpaces rest4) with
                  | some pm => some (h, mins, pm)
                  | none => none
      | _ => none

/-- `hr.toString().padStart(2, '0')`. -/
def pad2 (n : Nat) : String := if n < 10 then "0" ++ toString n else toString n

/-- The "clean up time format" block of `validateEventDetails`: trim, and
convert a 12-hour time to 24-hour (`parseInt(hours) % 12 + (pm ? 12 : 0)`),
leaving any other shape unchanged. -/
def normalizeTime (time : String) : String :=
  match parse12HourTime (jsTrim time) with
  | some (h, mins, pm) => pad2 (h % 12 + if pm then 12 else 0) ++ ":" ++ mins
  | none => jsTrim time

/-- The anchored final-format regex `^([01]\d|2[0-3]):([0-5]\d)$`. -/
def time24Ok (s : String) : Bool :=
  match s.toList with
  | [h1, h2, ':', m1, m2] =>
      decide ((((h1 = '0' ∨ h1 = '1') ∧ h2.isDigit = true) ∨
               (h1 = '2' ∧ '0' ≤ h2 ∧ h2 ≤ '3')) ∧
              ('0' ≤ m1 ∧ m1 ≤ '5') ∧ m2.isDigit = true)
  | _ => false

/-- Gregorian leap-year rule, as implemented by the JavaScript `Date`. -/
def isLeapYear (y : Nat) : Bool :=
  y % 4 = 0 && (y % 100 != 0 || y % 400 = 0)

/-- Number of days in a month, as accepted by the JavaScript `Date`
parser for `YYYY-MM-DDTHH:MM` strings. -/
def daysInMonth (y m : Nat) : Nat :=
  if m = 2 then (if isLeapYear y then 29 else 28)
  else if m = 4 ∨ m = 6 ∨ m = 9 ∨ m = 11 then 30
  else 31

/-- Days between a civil date and 1970-01-01 (standard civil-from-days
computation; all intermediate divisions act on nonnegative values for the
four-digit years produced by `dateFormatOk`). -/
def daysFromCivil (y m d : Nat) : Int :=
  let yAdj : Int := if m ≤ 2 then (y : Int) - 1 else (y : Int)
  let era : Int := (if 0 ≤ yAdj then yAdj else yAdj - 399) / 400
  let yoe : Int := yAdj - era * 400
  let mp : Int := if 2 < m then (m : Int) - 3 else (m : Int) + 9
  let doy : Int := (153 * mp + 2) / 5 + (d : Int) - 1
  let doe : Int := yoe * 365 + yoe / 4 - yoe / 100 + doy
  era * 146097 + doe - 719468

/-- `new Date(`${date}T${time}`)` for a `YYYY-MM-DD` date and `HH:MM`
time, in minutes since the epoch of the local clock; `none` is the
Invalid Date (`NaN`) outcome for out-of-range components. -/
def dateTimeToMinutes (date time : String) : Option Int :=
  match date.toList, time.toList with
  | [y1, y2, y3, y4, '-', mo1, mo2, '-', d1, d2], [h1, h2, ':', mi1, mi2] =>
      if y1.isDigit ∧ y2.isDigit ∧ y3.isDigit ∧ y4.isDigit ∧
         mo1.isDigit ∧ mo2.isDigit ∧ d1.isDigit ∧ d2.isDigit ∧
         h1.isDigit ∧ h2.isDigit ∧ mi1.isDigit ∧ mi2.isDigit then
        let y := 1000 * digitVal y1 + 100 * digitVal y2 + 10 * digitVal y3 + digitVal y4
        let mo := 10 * digitVal mo1 + digitVal mo2
        let d := 10 * digitVal d1 + digitVal d2
        let h := 10 * digitVal h1 + digitVal h2
        let mi := 10 * digitVal mi1 + digitVal mi2
        if 1 ≤ mo ∧ mo ≤ 12 ∧ 1 ≤ d ∧ d ≤ daysInMonth y mo ∧ h ≤ 23 ∧ mi ≤ 59 then
          some (daysFromCivil y mo d * 1440 + (h * 60 + mi : Nat))
        else none
      else none
  | _, _ => none

/-- The end-time block of `validateEventDetails`: a present end time is
trimmed and 12-hour-converted; if the result still fails the 24-hour
format it is cleared to the empty string instead of failing validation. -/
def fixEndTime (ed : EventDetails) : String :=
  if ed.endTime ≠ "" then
    (if time24Ok (normalizeTime ed.endTime) then normalizeTime ed.endTime else "")
  else ed.endTime

/-- The end-date block of `validateEventDetails`: a present end date that
fails `^\d{4}-\d{2}-\d{2}$` is replaced by the start date instead of
failing validation. -/
def fixEndDate (ed : EventDetails) : String :=
  if ed.endDate ≠ "" ∧ dateFormatOk ed.endDate = false then ed.date else ed.endDate

/-- `OpenAIService.validateEventDetails`, returning the event details as
mutated by the source (normalized `time`, fixed `endTime`/`endDate`) when
it returns `true`, and `none` when it returns `false`. -/
def validateEventDetails (ed : EventDetails) (now : Int) : Option EventDetails :=
  if ed.hasEvent = false then none
  else if ed.title = "" ∨ ed.date = "" ∨ ed.time = "" then none
  else if dateFormatOk ed.date = false then none
  else if time24Ok (normalizeTime ed.time) = false then none
  else
    match dateTimeToMinutes ed.date (normalizeTime ed.time) with
    | none => none
    | some m =>
        if m + 60 < now then none
        else some { ed with time := normalizeTime ed.time,
                            endTime := fixEndTime ed, endDate := fixEndDate ed }

example : normalizeTime "2:30 PM" = "14:30" := by decide
example : normalizeTime " 12:05am " = "00:05" := by decide
example : normalizeTime "12:05:30pm" = "12:05" := by decide
example : normalizeTime "14:00" = "14:00" := by decide
example : dateFormatOk "2030-05-01" = true := by decide
example : dateFormatOk "tomorrow" = false := by decide
example : time24Ok "23:59" = true := by decide
example : time24Ok "24:00" = false := by decide
example : dateTimeToMinutes "1970-01-02" "00:01" = some 1441 := by decide
example : dateTimeToMinutes "2025-02-29" "10:00" = none := by decide
example :
    validateEventDetails
      { hasEvent := true, title := "Team meeting", date := "2030-05-01",
        time := "2:30pm", endDate := "soonish", endTime := "25:99",
        location := "", description := "" } 0 =
    some { hasEvent := true, title := "Team meeting", date := "2030-05-01",
           time := "14:30", endDate := "2030-05-01", endTime := "",
           location := "", description := "" } := by decide

/-- C7: validation accepts extracted event details only when title, a
`YYYY-MM-DD` date and an `HH:MM` time (after 12-hour-to-24-hour
normalization) are all present; it rejects any event whose combined start
date-time is more than one hour before the current clock; a malformed end
time is cleared to empty and a malformed end date is replaced by the
start date, and neither end field ever causes rejection. -/
theorem claim_C7 (ed : EventDetails) (now : Int) :
    ((validateEventDetails ed now).isSome = true →
        ed.hasEvent = true ∧ ed.title ≠ "" ∧ dateFormatOk ed.date = true ∧
        time24Ok (normalizeTime ed.time) = true) ∧
    (∀ m, dateTimeToMinutes ed.date (normalizeTime ed.time) = some m →
        m + 60 < now → validateEventDetails ed now = none) ∧
    (∀ ed2, validateEventDetails ed now = some ed2 →
        (ed.endTime ≠ "" → time24Ok (normalizeTime ed.endTime) = false →
          ed2.endTime = "") ∧
        (ed.endDate ≠ "" → dateFormatOk ed.endDate = false →
          ed2.endDate = ed.date)) ∧
    (validateEventDetails ed now).isSome =
      (validateEventDetails { ed with endTime := "", endDate := "" } now).isSome := by
  refine ⟨?_, ?_, ?_, ?_⟩
  · intro h
    unfold validateEventDetails at h
    split_ifs at h with h1 h2 h3 h4
    · exact absurd h (by simp)
    · exact absurd h (by simp)
    · exact absurd h (by simp)
    · exact absurd h (by simp)
    · refine ⟨by simpa using h1, fun ht => h2 (Or.inl ht), by simpa using h3,
        by simpa using h4⟩
  · intro m hm hpast
    unfold validateEventDetails
    split_ifs with h1 h2 h3 h4
    · rfl
    · rfl
    · rfl
    · rfl
    · rw [hm]
      simp [hpast]
  · intro ed2 he
    unfold validateEventDetails at he
    split_ifs at he with h1 h2 h3 h4
    · cases hdt : dateTimeToMinutes ed.date (normalizeTime ed.time) with
      | none =>
          rw [hdt] at he
          exact absurd he (by simp)
      | some m =>
          rw [hdt] at he
          dsimp only at he
          by_cases hp : m + 60 < now
          · rw [if_pos hp] at he
            exact Option.noConfusion he
          · rw [if_neg hp] at he
            constructor
            · intro hne hbad
              rw [← Option.some.inj he]
              simp [fixEndTime, hne, hbad]
            · intro hne hbad
              rw [← Option.some.inj he]
              simp [fixEndDate, hne, hbad]
  · unfold validateEventDetails
    dsimp only
    split_ifs
    · rfl
    · rfl
    · rfl
    · rfl
    · cases dateTimeToMinutes ed.date (normalizeTime ed.time) with
      | none => rfl
      | some m =>
          by_cases hp : m + 60 < now
          · simp [hp]
          · simp [hp]

/-- A concrete extracted event: 12-hour start time, malformed end date
and end time. -/
def sampleEvent : EventDetails :=
  { hasEvent := true, title := "Team meeting", date := "2030-05-01",
    time := "2:30pm", endDate := "soonish", endTime := "25:99",
    location := "", description := "" }

/-- `sampleEvent` after validation repairs it. -/
def sampleEventFixed : EventDetails :=
  { hasEvent := true, title := "Team meeting", date := "2030-05-01",
    time := "14:30", endDate := "2030-05-01", endTime := "",
    location := "", description := "" }

/-- Witness for C7: the sample event is accepted at clock 0 with its
12-hour time normalized, its malformed end time cleared and its
malformed end date replaced by the start date. -/
theorem claim_C7_witness :
    validateEventDetails sampleEvent 0 = some sampleEventFixed ∧
    sampleEventFixed.endTime = "" ∧ sampleEventFixed.endDate = sampleEvent.date := by
  have h := (claim_C7 sampleEvent 0).2.2.1 sampleEventFixed (by decide)
  exact ⟨by decide, h.1 (by decide) (by decide), h.2 (by decide) (by decide)⟩

/-- A channel entry inside the guild lookup table. -/
structure GuildChannel where
  id : String
  name : String
  deriving Repr, DecidableEq

/-- An entry of `guildLookup` (`{ name, id, channels }`). -/
structure Guild where
  name : String
  id : String
  channels : List GuildChannel
  deriving Repr, DecidableEq

/-- Result of `getServerFromChannel`: either the
`{ server, serverid, channel }` object or the literal string
`'Unknown Server'`. -/
inductive ServerInfo where
  | info (server : String) (serverid : String) (channel : String)
  | unknownServer
  deriving Repr, DecidableEq

/-- `serverInfo.server` (only read when the lookup succeeded). -/
def ServerInfo.serverOf : ServerInfo → String
  | .info sv _ _ => sv
  | .unknownServer => ""

/-- `serverInfo.serverid` (only read when the lookup succeeded). -/
def ServerInfo.serveridOf : ServerInfo → String
  | .info _ sid _ => sid
  | .unknownServer => ""

/-- `serverInfo.channel` (only read when the lookup succeeded). -/
def ServerInfo.channelOf : ServerInfo → String
  | .info _ _ ch => ch
  | .unknownServer => ""

/-- `getServerFromChannel`: scan guilds in order, then their channels in
order, returning the first guild containing the channel id; otherwise the
`'Unknown Server'` marker. -/
def getServerFromChannel (guildLookup : List Guild) (channelID : String) : ServerInfo :=
  match guildLookup with
  | [] => .unknownServer
  | g :: rest =>
      match g.channels.find? (fun ch => ch.id == channelID) with
      | some ch => .info g.name g.id ch.name
      | none => getServerFromChannel rest channelID

/-- Parsed `{ category, importance }` JSON from the categorize call. -/
structure Categorization where
  category : String
  importance : String
  deriving Repr, DecidableEq

/-- `OpenAIService.categorizeMessage`: DMs are never categorized; the
backend outcome (`resp`, with `none` covering thrown errors, non-OK
responses, and unparsable bodies) must carry truthy `category` and
`importance` fields. -/
def categorizeMessage (c : AIConfig) (resp : Option Categorization)
    (messageContent : String) (isDM : Bool) : Option Categorization :=
  if isDM then none
  else if ¬(c.enabled = true) ∨ messageContent = "" ∨ jsTrim messageContent = "" then none
  else
    match resp with
    | some cat => if cat.category ≠ "" ∧ cat.importance ≠ "" then some cat else none
    | none => none

/-- `OpenAIService.extractEventDetails`: backend outcome `resp` is the
parsed JSON payload (`none` covering thrown errors, non-OK responses,
`NO_EVENT` answers, and unparsable bodies); a payload only survives
`validateEventDetails`. -/
def extractEventDetails (c : AIConfig) (resp : Option EventDetails)
    (messageContent : String) (now : Int) : Option EventDetails :=
  if ¬(isEnabled c = true) ∨ messageContent = "" then none
  else
    match resp with
    | none => none
    | some ed => validateEventDetails ed now

/-- Observable outcomes of the three enrichment-time backend calls for
one record's cycle. -/
structure Oracle where
  extractResp : Option EventDetails
  categorizeResp : Option Categorization
  needResp : NeedCheckResp
  deriving Repr, DecidableEq

/-- Which `OpenAIService` capabilities `processNotification` invoked. -/
inductive AICall where
  | extractEvent
  | categorize
  | shouldCheck
  deriving Repr, DecidableEq

/-- Outcome of the AI-enrichment block of `processNotification`. -/
structure EnrichResult where
  category : Option String
  importance : Option String
  eventDetails : Option EventDetails
  summaryPending : Bool
  calls : List AICall
  deriving Repr, DecidableEq

/-- JavaScript truthiness of a possibly-undefined string. -/
def jsTruthy : Option String → Bool
  | some s => s != ""
  | none => false

/-- The `if (settings.enableSummarization && data.body &&
openAIService.isEnabled())` block of `processNotification`: extract event
details for all messages (forcing `category = 'EVENT'`,
`importance = 'MEDIUM'` on success); categorize only non-DM messages and
only when no event was found; then ask `shouldSummarize`. -/
def runEnrichment (enableSummarization : Bool) (c : AIConfig) (o : Oracle)
    (body : Option String) (isDM : Bool) (now : Int) : EnrichResult :=
  if enableSummarization && jsTruthy body && isEnabled c then
    let b := body.getD ""
    let ev := extractEventDetails c o.extractResp b now
    let catNeeded := !isDM && ev.isNone
    let catRes := if catNeeded then categorizeMessage c o.categorizeResp b isDM else none
    { category := match ev, catRes with
        | some _, _ => some "EVENT"
        | none, some cat => some cat.category
        | none, none => none
      importance := match ev, catRes with
        | some _, _ => some "MEDIUM"
        | none, some cat => some cat.importance
        | none, none => none
      eventDetails := ev
      summaryPending := shouldSummarize c b o.needResp
      calls := [AICall.extractEvent] ++ (if catNeeded then [AICall.categorize] else []) ++
        [AICall.shouldCheck] }
  else
    { category := none, importance := none, eventDetails := none,
      summaryPending := false, calls := [] }

/-- The raw `NOTIFICATION_CREATE` event payload (fields the source
reads); `none` models an absent (`undefined`) field. -/
structure RawData where
  messageId : Option String
  nick : Option String
  timestamp : String
  title : String
  body : Option String
  iconUrl : String
  channelId : String
  deriving Repr, DecidableEq

/-- Template-literal interpolation of a possibly-undefined string. -/
def jsInterp : Option String → String
  | some s => s
  | none => "undefined"

/-- `processNotification`, returning the built notification object and
the list of backend capabilities it invoked. -/
def processNotification (enableSummarization : Bool) (c : AIConfig) (o : Oracle)
    (guildLookup : List Guild) (now : Int) (data : RawData) :
    Notification × List AICall :=
  let serverInfo := getServerFromChannel guildLookup data.channelId
  -- `typeof serverInfo === 'string'`
  let isUnknown := decide (serverInfo = ServerInfo.unknownServer)
  -- `!serverInfo || serverInfo === 'Unknown Server'`: the lookup never
  -- returns a falsy value, so this is exactly the unknown case.
  let isDM := decide (serverInfo = ServerInfo.unknownServer)
  let enr := runEnrichment enableSummarization c o data.body isDM now
  ({ id := data.messageId
     title := data.title
     body := data.body
     summary := none
     summaryPending := enr.summaryPending
     category := enr.category
     importance := enr.importance
     eventDetails := enr.eventDetails
     icon := data.iconUrl
     timestamp := data.timestamp
     serverName := if isDM then "Direct Message"
       else if isUnknown then "Unknown Server" else serverInfo.serverOf
     channelName := if isDM then jsOrStringField data.nick "DM"
       else if isUnknown then "" else serverInfo.channelOf
     serverId := if isUnknown then "" else serverInfo.serveridOf
     channelId := data.channelId
     messageLink := if isUnknown then ""
       else "https://discord.com/channels/" ++
         (if isDM then "@me" else serverInfo.serveridOf) ++ "/" ++
         data.channelId ++ "/" ++ jsInterp data.messageId
     authorName := jsOrStringField data.nick "Unknown User" }, enr.calls)

/-- The `NOTIFICATION_CREATE` handler: process the raw event (no
validation of any kind) and prepend the result to the bounded store. -/
def onNotificationCreate (st : List Notification) (enableSummarization : Bool)
    (c : AIConfig) (o : Oracle) (guildLookup : List Guild) (now : Int)
    (data : RawData) : List Notification :=
  storePrepend st (processNotification enableSummarization c o guildLookup now data).1

/-- Reply shape of the `discord:get-notifications-page` handler. -/
structure PageResult where
  notifications : List Notification
  hasMore : Bool
  total : Nat
  deriving Repr, DecidableEq

/-- The `discord:get-notifications-page` handler:
`slice(0, page * perPage)`, `hasMore = endIndex < length`,
`total = length`. -/
def getNotificationsPage (st : List Notification) (page perPage : Nat) : PageResult :=
  { notifications := st.take (page * perPage)
    hasMore := decide (page * perPage < st.length)
    total := st.length }

/-- Payload of a `discord:summary-update` message; the success payload
carries no `cancelled` field, which subscribers read as `false`. -/
structure SummaryUpdate where
  id : Option String
  summary : Option String
  cancelled : Bool
  deriving Repr, DecidableEq

/-- In-place update of the element at an index (`notifications[i] = ...`). -/
def modifyAt (f : α → α) : Nat → List α → List α
  | _, [] => []
  | 0, x :: xs => f x :: xs
  | n + 1, x :: xs => x :: modifyAt f n xs

/-- JavaScript `Array.prototype.findIndex` (`none` standing for `-1`). -/
def findIndex (p : α → Bool) : List α → Option Nat
  | [] => none
  | x :: xs => if p x then some 0 else (findIndex p xs).map (· + 1)

/-- A predicate with no `find?` hit has no `findIndex` hit either. -/
theorem findIndex_eq_none_of_find?_eq_none {p : α → Bool} :
    ∀ {l : List α}, l.find? p = none → findIndex p l = none := by
  intro l
  induction l with
  | nil => intro _; rfl
  | cons x xs ih =>
      intro h
      by_cases hx : p x = true
      · rw [List.find?_cons_of_pos _ hx] at h
        exact Option.noConfusion h
      · rw [List.find?_cons_of_neg _ hx] at h
        unfold findIndex
        rw [if_neg (by simpa using hx), ih h]
        rfl

/-- `const index = notifications.findIndex(n => n.id === id); if (index
!== -1) { ...mutate notifications[index]... }`. -/
def mutateIfPresent (st : List Notification) (id : Option String)
    (f : Notification → Notification) : List Notification :=
  match findIndex (fun n => n.id == id) st with
  | some i => modifyAt f i st
  | none => st

/-- The resolution callback attached to `generateMessageSummary(...)` in
`processNotification`: on a non-null summary, set it and clear the
pending flag if the record is still present, then send a summary update;
on a null summary (or a thrown error), clear the pending flag if present,
then send a cancelled summary update.  Both sends happen whenever the
main window is alive, whether or not the record was found. -/
def handleSummaryResolution (st : List Notification) (id : Option String)
    (summaryRes : Option String) (windowAlive : Bool) :
    List Notification × List SummaryUpdate :=
  match summaryRes with
  | some s =>
      (mutateIfPresent st id (fun n => { n with summary := some s, summaryPending := false }),
       if windowAlive then [{ id := id, summary := some s, cancelled := false }] else [])
  | none =>
      (mutateIfPresent st id (fun n => { n with summaryPending := false }),
       if windowAlive then [{ id := id, summary := none, cancelled := true }] else [])

/-- Enrichment of a DM-origin record: `category`/`importance` are set
exactly when event extraction succeeds (to EVENT/MEDIUM), and the
categorize capability is never invoked. -/
theorem runEnrichment_dm (e : Bool) (c : AIConfig) (o : Oracle)
    (body : Option String) (now : Int) :
    ((runEnrichment e c o body true now).eventDetails = none →
        (runEnrichment e c o body true now).category = none ∧
        (runEnrichment e c o body true now).importance = none) ∧
    (∀ ed, (runEnrichment e c o body true now).eventDetails = some ed →
        (runEnrichment e c o body true now).category = some "EVENT" ∧
        (runEnrichment e c o body true now).importance = some "MEDIUM") ∧
    AICall.categorize ∉ (runEnrichment e c o body true now).calls := by
  unfold runEnrichment
  by_cases hg : (e && jsTruthy body && isEnabled c) = true
  · rw [if_pos hg]
    dsimp only
    cases hev : extractEventDetails c o.extractResp (body.getD "") now with
    | none => simp [hev]
    | some ed => simp [hev]
  · rw [if_neg hg]
    simp

/-- An enabled length-mode configuration. -/
def cfgOn : AIConfig :=
  { apiKey := "k", apiEndpoint := "http://localhost:1234/v1", enabled := true,
    detectionMode := "length", minLength := 100, model := "m" }

/-- An oracle whose extraction succeeds (with `sampleEvent`) and whose
categorization would return ANNOUNCEMENT/HIGH. -/
def oracleBoth : Oracle :=
  { extractResp := some sampleEvent,
    categorizeResp := some { category := "ANNOUNCEMENT", importance := "HIGH" },
    needResp := NeedCheckResp.notOk }

/-- A raw event whose channel id resolves to no guild (DM origin). -/
def dmRaw : RawData :=
  { messageId := some "m1", nick := some "Alice", timestamp := "ts", title := "T",
    body := some "Team meeting on 2030-05-01 at 2:30pm", iconUrl := "i",
    channelId := "dmchan" }

/-- C2 as stated is false: a DM-origin record (channel id unresolved)
whose body yields a successful event extraction ends the enrichment cycle
with `category = 'EVENT'` and `importance = 'MEDIUM'`, not null. -/
theorem claim_C2_counterexample :
    getServerFromChannel [] dmRaw.channelId = ServerInfo.unknownServer ∧
    (processNotification true cfgOn oracleBoth [] 0 dmRaw).1.category = some "EVENT" ∧
    (processNotification true cfgOn oracleBoth [] 0 dmRaw).1.importance = some "MEDIUM" := by
  decide

/-- C2 amended: for DM-origin records, `category`/`importance` stay null
unless event extraction succeeds and validates, in which case they are
forced to EVENT/MEDIUM; the categorize capability is never invoked for DM
records. -/
theorem claim_C2_amended (e : Bool) (c : AIConfig) (o : Oracle) (gs : List Guild)
    (now : Int) (d : RawData)
    (hdm : getServerFromChannel gs d.channelId = ServerInfo.unknownServer) :
    ((processNotification e c o gs now d).1.eventDetails = none →
        (processNotification e c o gs now d).1.category = none ∧
        (processNotification e c o gs now d).1.importance = none) ∧
    (∀ ed, (processNotification e c o gs now d).1.eventDetails = some ed →
        (processNotification e c o gs now d).1.category = some "EVENT" ∧
        (processNotification e c o gs now d).1.importance = some "MEDIUM") ∧
    AICall.categorize ∉ (processNotification e c o gs now d).2 := by
  have hd : decide (getServerFromChannel gs d.channelId = ServerInfo.unknownServer) = true := by
    simp [hdm]
  have hev : (processNotification e c o gs now d).1.eventDetails =
      (runEnrichment e c o d.body
        (decide (getServerFromChannel gs d.channelId = ServerInfo.unknownServer)) now).eventDetails := rfl
  have hcat : (processNotification e c o gs now d).1.category =
      (runEnrichment e c o d.body
        (decide (getServerFromChannel gs d.channelId = ServerInfo.unknownServer)) now).category := rfl
  have himp : (processNotification e c o gs now d).1.importance =
      (runEnrichment e c o d.body
        (decide (getServerFromChannel gs d.channelId = ServerInfo.unknownServer)) now).importance := rfl
  have hcalls : (processNotification e c o gs now d).2 =
      (runEnrichment e c o d.body
        (decide (getServerFromChannel gs d.channelId = ServerInfo.unknownServer)) now).calls := rfl
  rw [hev, hcat, himp, hcalls, hd]
  exact runEnrichment_dm e c o d.body now

/-- Witness for the amended C2: the DM-origin record of the
counterexample, where extraction succeeds. -/
theorem claim_C2_amended_witness :
    (processNotification true cfgOn oracleBoth [] 0 dmRaw).1.category = some "EVENT" ∧
    (processNotification true cfgOn oracleBoth [] 0 dmRaw).1.importance = some "MEDIUM" ∧
    AICall.categorize ∉ (processNotification true cfgOn oracleBoth [] 0 dmRaw).2 := by
  have h := claim_C2_amended true cfgOn oracleBoth [] 0 dmRaw (by decide)
  have h2 := h.2.1 sampleEventFixed (by decide)
  exact ⟨h2.1, h2.2, h.2.2⟩

/-- C3 as stated is false: when the record has already been evicted, the
resolution handler indeed mutates nothing, but it still emits a
summary-resolution announcement. -/
theorem claim_C3_counterexample :
    getById [] (some "a") = none ∧
    (handleSummaryResolution [] (some "a") (some "X") true).1 = [] ∧
    (handleSummaryResolution [] (some "a") (some "X") true).2 =
      [{ id := some "a", summary := some "X", cancelled := false }] := by
  decide

/-- C3 amended: when the record has been evicted before the summarize
call resolves, the handler performs no mutation and raises nothing, but
the summary-resolution announcement is still emitted (whenever the main
window is alive), carrying the resolved summary or the cancellation
flag. -/
theorem claim_C3_amended (st : List Notification) (id : Option String)
    (summaryRes : Option String) (windowAlive : Bool)
    (habs : getById st id = none) :
    (handleSummaryResolution st id summaryRes windowAlive).1 = st ∧
    (handleSummaryResolution st id summaryRes windowAlive).2 =
      (if windowAlive then
        [{ id := id, summary := summaryRes, cancelled := summaryRes.isNone }]
       else []) := by
  have hidx : findIndex (fun n => n.id == id) st = none :=
    findIndex_eq_none_of_find?_eq_none habs
  cases summaryRes with
  | some s => simp [handleSummaryResolution, mutateIfPresent, hidx]
  | none => simp [handleSummaryResolution, mutateIfPresent, hidx]

/-- Witness for the amended C3: a store holding one other record, a
cancelled summary for an absent id. -/
theorem claim_C3_amended_witness :
    (handleSummaryResolution [mkRec 1] (some "zz") none true).1 = [mkRec 1] ∧
    (handleSummaryResolution [mkRec 1] (some "zz") none true).2 =
      [{ id := some "zz", summary := none, cancelled := true }] := by
  have h := claim_C3_amended [mkRec 1] (some "zz") none true (by decide)
  refine ⟨h.1, ?_⟩
  rw [h.2]
  decide

/-- A lookup table holding one guild with one channel. -/
def guilds1 : List Guild :=
  [{ name := "Gamma", id := "g1", channels := [{ id := "c1", name := "general" }] }]

/-- A raw event whose channel id resolves inside `guilds1`. -/
def guildRaw : RawData :=
  { messageId := some "m2", nick := some "Bob", timestamp := "ts", title := "T",
    body := some "Team meeting on 2030-05-01 at 2:30pm", iconUrl := "i",
    channelId := "c1" }

/-- C4 as stated is false: for a non-DM record on which event extraction
succeeds, the categorize capability is not attempted at all, and
`category` is forced to EVENT even though the oracle would have returned
the stronger ANNOUNCEMENT/HIGH categorization. -/
theorem claim_C4_counterexample :
    getServerFromChannel guilds1 guildRaw.channelId =
      ServerInfo.info "Gamma" "g1" "general" ∧
    oracleBoth.categorizeResp =
      some { category := "ANNOUNCEMENT", importance := "HIGH" } ∧
    (processNotification true cfgOn oracleBoth guilds1 0 guildRaw).1.category =
      some "EVENT" ∧
    AICall.categorize ∉ (processNotification true cfgOn oracleBoth guilds1 0 guildRaw).2 := by
  decide

/-- C4 amended: for non-DM records with enrichment enabled, event
extraction is always attempted; when it succeeds and validates,
`eventDetails` is set, `category`/`importance` are forced to
EVENT/MEDIUM, and categorize is not attempted; categorize is attempted
only when extraction yields no event, and then its result (if any) sets
`category`/`importance`. -/
theorem claim_C4_amended (e : Bool) (c : AIConfig) (o : Oracle) (gs : List Guild)
    (now : Int) (d : RawData) (sv sid cn : String)
    (hfound : getServerFromChannel gs d.channelId = ServerInfo.info sv sid cn)
    (hguard : (e && jsTruthy d.body && isEnabled c) = true) :
    (processNotification e c o gs now d).1.eventDetails =
      extractEventDetails c o.extractResp (d.body.getD "") now ∧
    (∀ ed, extractEventDetails c o.extractResp (d.body.getD "") now = some ed →
        (processNotification e c o gs now d).1.category = some "EVENT" ∧
        (processNotification e c o gs now d).1.importance = some "MEDIUM" ∧
        AICall.categorize ∉ (processNotification e c o gs now d).2) ∧
    (extractEventDetails c o.extractResp (d.body.getD "") now = none →
        AICall.categorize ∈ (processNotification e c o gs now d).2 ∧
        (processNotification e c o gs now d).1.category =
          (match categorizeMessage c o.categorizeResp (d.body.getD "") false with
           | some cat => some cat.category
           | none => none) ∧
        (processNotification e c o gs now d).1.importance =
          (match categorizeMessage c o.categorizeResp (d.body.getD "") false with
           | some cat => some cat.importance
           | none => none)) := by
  have hd : decide (getServerFromChannel gs d.channelId = ServerInfo.unknownServer) = false := by
    simp [hfound]
  have hev : (processNotification e c o gs now d).1.eventDetails =
      (runEnrichment e c o d.body
        (decide (getServerFromChannel gs d.channelId = ServerInfo.unknownServer)) now).eventDetails := rfl
  have hcat : (processNotification e c o gs now d).1.category =
      (runEnrichment e c o d.body
        (decide (getServerFromChannel gs d.channelId = ServerInfo.unknownServer)) now).category := rfl
  have himp : (processNotification e c o gs now d).1.importance =
      (runEnrichment e c o d.body
        (decide (getServerFromChannel gs d.channelId = ServerInfo.unknownServer)) now).importance := rfl
  have hcalls : (processNotification e c o gs now d).2 =
      (runEnrichment e c o d.body
        (decide (getServerFromChannel gs d.channelId = ServerInfo.unknownServer)) now).calls := rfl
  rw [hev, hcat, himp, hcalls, hd]
  unfold runEnrichment
  rw [if_pos hguard]
  dsimp only
  cases hx : extractEventDetails c o.extractResp (d.body.getD "") now with
  | none =>
      simp only [hx]
      cases categorizeMessage c o.categorizeResp (d.body.getD "") false <;> simp
  | some ed => simp [hx]

/-- Witness for the amended C4: the concrete non-DM record of the
counterexample, where extraction succeeds. -/
theorem claim_C4_amended_witness :
    (processNotification true cfgOn oracleBoth guilds1 0 guildRaw).1.category =
      some "EVENT" ∧
    (processNotification true cfgOn oracleBoth guilds1 0 guildRaw).1.importance =
      some "MEDIUM" := by
  have h := claim_C4_amended true cfgOn oracleBoth guilds1 0 guildRaw
    "Gamma" "g1" "general" (by decide) (by decide)
  have h2 := h.2.1 sampleEventFixed (by decide)
  exact ⟨h2.1, h2.2.1⟩

/-- C6: the pagination query returns exactly the records
`[0 .. pageNumber*pageSize)` from the head of the store (truncated at the
store's end), `hasMore` holds exactly when `pageNumber*pageSize < total`,
and `total` is the current store size. -/
theorem claim_C6 (st : List Notification) (page perPage : Nat) :
    (getNotificationsPage st page perPage).total = st.length ∧
    ((getNotificationsPage st page perPage).hasMore = true ↔
      page * perPage < st.length) ∧
    (getNotificationsPage st page perPage).notifications.length =
      min (page * perPage) st.length ∧
    ∀ i : Nat, (getNotificationsPage st page perPage).notifications.get? i =
      if i < page * perPage then st.get? i else none := by
  refine ⟨rfl, by simp [getNotificationsPage], by simp [getNotificationsPage], ?_⟩
  intro i
  simp only [getNotificationsPage]
  by_cases hi : i < page * perPage
  · rw [if_pos hi, List.get?_take hi]
  · rw [if_neg hi]
    refine List.get?_eq_none.mpr ?_
    rw [List.length_take]
    omega

/-- A raw event whose channel id does not occur in the non-empty lookup
table `guilds1`. -/
def unknownRaw : RawData :=
  { messageId := some "m3", nick := some "Cara", timestamp := "ts", title := "T",
    body := some "hi", iconUrl := "i", channelId := "c2" }

/-- C8 as stated is false: with a non-empty lookup table that does not
contain the channel id, the record is not given the non-DM
"Unknown Server" treatment — it is classified as a Direct Message. -/
theorem claim_C8_counterexample :
    guilds1 ≠ [] ∧
    getServerFromChannel guilds1 unknownRaw.channelId = ServerInfo.unknownServer ∧
    (processNotification true cfgOn oracleBoth guilds1 0 unknownRaw).1.serverName =
      "Direct Message" := by
  decide

/-- C8 amended: a channel id found in the lookup table yields the
GuildChannel fields (server name, channel name, server id, deep link);
a channel id not found is treated as a Direct Message regardless of
whether the lookup table is empty, with empty server id and link — the
non-DM "Unknown Server" variant is unreachable. -/
theorem claim_C8_amended (e : Bool) (c : AIConfig) (o : Oracle) (gs : List Guild)
    (now : Int) (d : RawData) :
    (∀ sv sid cn, getServerFromChannel gs d.channelId = ServerInfo.info sv sid cn →
        (processNotification e c o gs now d).1.serverName = sv ∧
        (processNotification e c o gs now d).1.channelName = cn ∧
        (processNotification e c o gs now d).1.serverId = sid ∧
        (processNotification e c o gs now d).1.messageLink =
          "https://discord.com/channels/" ++ sid ++ "/" ++ d.channelId ++ "/" ++
            jsInterp d.messageId) ∧
    (getServerFromChannel gs d.channelId = ServerInfo.unknownServer →
        (processNotification e c o gs now d).1.serverName = "Direct Message" ∧
        (processNotification e c o gs now d).1.channelName =
          jsOrStringField d.nick "DM" ∧
        (processNotification e c o gs now d).1.serverId = "" ∧
        (processNotification e c o gs now d).1.messageLink = "") := by
  constructor
  · intro sv sid cn h
    simp only [processNotification, h]
    simp [ServerInfo.serverOf, ServerInfo.serveridOf, ServerInfo.channelOf]
  · intro h
    simp only [processNotification, h]
    simp

/-- Witness for the amended C8: a resolved channel in `guilds1`. -/
theorem claim_C8_amended_witness :
    (processNotification true cfgOn oracleBoth guilds1 0 guildRaw).1.serverName =
      "Gamma" ∧
    (processNotification true cfgOn oracleBoth guilds1 0 guildRaw).1.serverId = "g1" := by
  have h := (claim_C8_amended true cfgOn oracleBoth guilds1 0 guildRaw).1
    "Gamma" "g1" "general" (by decide)
  exact ⟨h.1, h.2.2.1⟩

/-- A raw event missing both its message id and its body. -/
def malformedRaw : RawData :=
  { messageId := none, nick := none, timestamp := "ts", title := "T",
    body := none, iconUrl := "", channelId := "c9" }

/-- C9 as stated is false: a raw event missing its message id and its
body is not rejected — its arrival still inserts a record into the
store. -/
theorem claim_C9_counterexample :
    malformedRaw.messageId = none ∧ malformedRaw.body = none ∧
    (onNotificationCreate [] false cfgOn oracleBoth [] 0 malformedRaw).length = 1 := by
  decide

/-- C9 amended: the arrival handler performs no validation of the raw
event: every event — including one missing its message id or its body —
is processed and prepended to the store, whose size grows by one up to
the capacity bound. -/
theorem claim_C9_amended (st : List Notification) (e : Bool) (c : AIConfig)
    (o : Oracle) (gs : List Guild) (now : Int) (d : RawData) :
    onNotificationCreate st e c o gs now d =
      storePrepend st (processNotification e c o gs now d).1 ∧
    (onNotificationCreate st e c o gs now d).head? =
      some (processNotification e c o gs now d).1 ∧
    (onNotificationCreate st e c o gs now d).length =
      min (st.length + 1) MAX_NOTIFICATIONS := by
  refine ⟨rfl, ?_, ?_⟩
  · rw [onNotificationCreate, storePrepend,
      show MAX_NOTIFICATIONS = 999 + 1 from rfl, List.take_succ_cons]
    rfl
  · rw [onNotificationCreate, storePrepend, List.length_take]
    simp only [List.length_cons]
    omega
